import Mathlib

/-!
Verification of the seapodym-lmtl-python dataflow core: a shallow embedding of
the cohort-coordinate derivation, the average-temperature kernel, the
template/eager-lazy kernel wrapper, the configuration validators, the
pre-production kernel ordering and the production timestamp-selection helper,
together with theorems settling the specification claims about them.
-/

namespace Seapopym

/-!
## Cohort coordinate derivation

Embedding of `_as_dataset__build_cohort_dataset___cohort_by_fgroup` from
`src/seapodym_lmtl_python/configuration/no_transport/configuration_to_dataset.py`:

    max_timestep = np.cumsum(timesteps_number)
    min_timestep = max_timestep - (np.asarray(timesteps_number) - 1)
    mean_timestep = (max_timestep + min_timestep) / 2

`mean_timestep` is a float array in the source; it is modelled over `ℚ`.
-/

/-- `np.cumsum`: output `i` is the sum of inputs `0..i`. -/
def cumsum : List ℤ → List ℤ
  | [] => []
  | x :: xs => x :: (cumsum xs).map (x + ·)

/-- The per-functional-group cohort fields built by
`_as_dataset__build_cohort_dataset___cohort_by_fgroup`. -/
structure CohortDataset where
  timesteps_number : List ℤ
  min_timestep : List ℤ
  max_timestep : List ℤ
  mean_timestep : List ℚ
  deriving DecidableEq, Repr

/-- Embedding of `_as_dataset__build_cohort_dataset___cohort_by_fgroup`
(the `fgroup` index argument only labels the dataset and is omitted). -/
def cohortByFgroup (timesteps_number : List ℤ) : CohortDataset :=
  let maxT := cumsum timesteps_number
  let minT := List.zipWith (fun m t => m - (t - 1)) maxT timesteps_number
  let meanT := List.zipWith (fun m n => (((m + n : ℤ) : ℚ)) / 2) maxT minT
  ⟨timesteps_number, minT, maxT, meanT⟩

/-!
## Average temperature by functional group

Embedding of `_average_temperature_by_fgroup_helper` from
`src/seapopym/function/generator/average_temperature.py`. Arrays are embedded
as functions over integer grid indices: `temperature` over
(time, Y, X, layer label), `day_length` over (time, Y, X), `mask_by_fgroup`
over (functional_group, Y, X), `day_layer`/`night_layer` over
functional_group. Temperature values are `ℚ`; a masked-out point of the
output is `Option.none` (the NaN produced by `DataArray.where`).
-/

/-- The fields of the state container read by
`_average_temperature_by_fgroup_helper`. -/
structure AvgTemperatureState where
  temperature : ℕ → ℕ → ℕ → ℤ → ℚ
  day_length : ℕ → ℕ → ℕ → ℚ
  mask_by_fgroup : ℕ → ℕ → ℕ → Bool
  day_layer : ℕ → ℤ
  night_layer : ℕ → ℤ

/-- `DataArray.where(cond)`: keep the value where the condition holds,
replace it by a missing value elsewhere. -/
def whereMask (cond : Bool) (v : ℚ) : Option ℚ :=
  if cond then some v else none

/-- Embedding of `_average_temperature_by_fgroup_helper`: for functional group
`g`, select `temperature` at `day_layer[g]` and `night_layer[g]`, form
`day_length * day_temperature + (1 - day_length) * night_temperature`, and
only then apply `mask_by_fgroup[g]` with `where`. The output is indexed as
(functional_group, time, Y, X). -/
def averageTemperatureHelper (s : AvgTemperatureState) (g t y x : ℕ) : Option ℚ :=
  let day_temperature := s.temperature t y x (s.day_layer g)
  let night_temperature := s.temperature t y x (s.night_layer g)
  let mean_temperature :=
    s.day_length t y x * day_temperature + (1 - s.day_length t y x) * night_temperature
  whereMask (s.mask_by_fgroup g y x) mean_temperature

/-- The weighted day/night temperature of the specification, written exactly as
the claim states it: `day_length * temperature(day_layer[g]) +
(1 - day_length) * temperature(night_layer[g])`, from unmasked temperatures. -/
def specWeightedTemperature (s : AvgTemperatureState) (g t y x : ℕ) : ℚ :=
  s.day_length t y x * s.temperature t y x (s.day_layer g)
    + (1 - s.day_length t y x) * s.temperature t y x (s.night_layer g)

/-- The reference state of the test suite
(`src/test/pre_production/test_average_temperature_by_fgroup.py`): 4
functional groups with (day_layer, night_layer) pairs
(1,1), (1,2), (2,2), (2,1), temperature increasing linearly with the layer
index (layer label k holds the value k - 1), constant day_length 0.5 and an
all-true mask. -/
def referenceState : AvgTemperatureState :=
  ⟨fun _ _ _ k => (k : ℚ) - 1,
   fun _ _ _ => 1 / 2,
   fun _ _ _ => true,
   fun g => List.getD [1, 1, 2, 2] g 1,
   fun g => List.getD [1, 2, 2, 1] g 1⟩

/-!
## Template, TemplateLazy and apply_map_block

`seapopym.function.core.template` is a module of this repository that is not
under `src/` (only its callers `average_temperature.py` and `global_mask.py`
are), so it is modelled from the specification (sections 4.4 and 4.5).
-/

/-- The metadata common to `Template` and `TemplateLazy`: output name, ordered
dimension list, attached attributes, optional chunk specification. -/
structure TemplateMeta where
  name : String
  dims : List String
  attributs : List (String × String)
  chunk : Option (List (String × ℕ))

/-- Modelled from the spec: the two template classes of
`seapopym.function.core.template` (not under `src/`). A plain `Template`
holds just metadata; a `TemplateLazy` additionally carries a `model_name`
and marks the kernel for deferred execution. -/
inductive KernelTemplate where
  | template : TemplateMeta → KernelTemplate
  | templateLazy : TemplateMeta → String → KernelTemplate

/-- A labeled array produced by a kernel: data plus dimension and attribute
metadata. -/
structure Forcing (α : Type) where
  data : α
  dims : List String
  attributs : List (String × String)

/-- The value returned by the kernel wrapper: either an array materialized at
call time (eager path) or a deferred computation evaluated on demand (lazy
path). -/
inductive KernelResult (α : Type) where
  | materialized : Forcing α → KernelResult α
  | deferred : (Unit → Forcing α) → KernelResult α

/-- Modelled from the spec: `apply_map_block` of
`seapopym.function.core.template` (not under `src/`). On the eager path (a
plain `Template`) the function is invoked immediately and the result carries
the template's metadata; on the lazy path (`TemplateLazy`) a deferred
computation of the same function with the same metadata is registered and
only runs when the caller forces evaluation. -/
def applyMapBlock {σ α : Type} (f : σ → α) (state : σ) (t : KernelTemplate) :
    KernelResult α :=
  match t with
  | .template m => .materialized ⟨f state, m.dims, m.attributs⟩
  | .templateLazy m _ => .deferred fun _ => ⟨f state, m.dims, m.attributs⟩

/-- Force a kernel result: a materialized array is returned as is, a deferred
computation is evaluated now. -/
def materializeResult {α : Type} : KernelResult α → Forcing α
  | .materialized a => a
  | .deferred thunk => thunk ()

/-- Modelled from the spec: the descriptive attributes
`average_temperature_by_fgroup_desc` of `seapopym.standard.attributs` (not
under `src/`); the spec fixes the unit degC. -/
def averageTemperatureByFgroupDesc : List (String × String) :=
  [("units", "degC")]

/-- Embedding of the `average_temperature` wrapper from
`src/seapopym/function/generator/average_temperature.py`: build a `Template`
when `lazyArg` is absent and a `TemplateLazy` carrying the model name when it
is present, with dims (functional_group, time, Y, X), then call
`apply_map_block` on `_average_temperature_by_fgroup_helper`. -/
def averageTemperatureKernel (s : AvgTemperatureState)
    (chunk : Option (List (String × ℕ))) (lazyArg : Option String) :
    KernelResult (ℕ → ℕ → ℕ → ℕ → Option ℚ) :=
  let meta : TemplateMeta :=
    ⟨"avg_temperature_by_fgroup", ["functional_group", "time", "Y", "X"],
      averageTemperatureByFgroupDesc, chunk⟩
  let template :=
    match lazyArg with
    | Option.none => KernelTemplate.template meta
    | some modelName => KernelTemplate.templateLazy meta modelName
  applyMapBlock (fun st g t y x => averageTemperatureHelper st g t y x) s template

/-- The state field read by the `global_mask` kernel: temperature over
(Y, X, layer label), where `Option.none` models a NaN / fill value. -/
structure GlobalMaskState where
  temperature : ℕ → ℕ → ℤ → Option ℚ

/-- Modelled from the spec: `landmask_from_nan` of
`seapopym.function.core.mask` (not under `src/`): the mask is true exactly
where temperature is defined (not a fill/NaN value). -/
def landmaskFromNan (temperature : ℕ → ℕ → ℤ → Option ℚ) : ℕ → ℕ → ℤ → Bool :=
  fun y x z => (temperature y x z).isSome

/-- Modelled from the spec: the descriptive attributes `global_mask_desc` of
`seapopym.standard.attributs` (not under `src/`). -/
def globalMaskDesc : List (String × String) :=
  [("standard_name", "land mask")]

/-- Embedding of the `global_mask` wrapper from
`src/seapopym/function/generator/global_mask.py`: same template selection as
`average_temperature`, with dims (Y, X, Z), applied to
`landmask_from_nan(temperature)`. -/
def globalMaskKernel (s : GlobalMaskState) (chunk : Option (List (String × ℕ)))
    (lazyArg : Option String) : KernelResult (ℕ → ℕ → ℤ → Bool) :=
  let meta : TemplateMeta :=
    ⟨"global_mask", ["Y", "X", "Z"], globalMaskDesc, chunk⟩
  let template :=
    match lazyArg with
    | Option.none => KernelTemplate.template meta
    | some modelName => KernelTemplate.templateLazy meta modelName
  applyMapBlock (fun st => landmaskFromNan st.temperature) s template

/-!
## Functional-group parameters and their validators

Embedding of `FunctionalGroupUnit` and `FunctionalGroups` from
`src/seapodym_lmtl_python/config/parameters.py`. Energy coefficients are
floats in the source and are modelled over `ℚ`; on the two concrete inputs of
the claim, float evaluation agrees with exact arithmetic
(0.5 + 0.3 + 0.3 > 1 and 0.5 + 0.3 + 0.2 == 1.0 in double precision).
-/

/-- The parameters of a single functional group (`FunctionalGroupUnit`). -/
structure FunctionalGroupUnit where
  group_name : String
  day_layer : ℤ
  night_layer : ℤ
  energy_coefficient : ℚ

/-- The per-field validators of `FunctionalGroupUnit`: `day_layer > 0`,
`night_layer > 0`, `energy_coefficient ∈ [0, 1]`. -/
def functionalGroupUnitValid (u : FunctionalGroupUnit) : Bool :=
  decide (0 < u.day_layer) && decide (0 < u.night_layer)
    && decide (0 ≤ u.energy_coefficient) && decide (u.energy_coefficient ≤ 1)

/-- Embedding of the `FunctionalGroups` constructor with its
`no_more_than_global_coef` validator: raise (`Except.error`) exactly when the
sum of the groups' energy coefficients is greater than 1, otherwise return
the validated object. -/
def mkFunctionalGroups (groups : List FunctionalGroupUnit) :
    Except String (List FunctionalGroupUnit) :=
  let total_energy := (groups.map (fun fg => fg.energy_coefficient)).sum
  if total_energy > 1 then
    Except.error "Sum of energy coefficient must be less or equal than 1."
  else
    Except.ok groups

/-- A list of functional groups with the given energy coefficients (name and
layers fixed to admissible values). -/
def groupsWithCoefficients (cs : List ℚ) : List FunctionalGroupUnit :=
  cs.map (fun c => ⟨"group", 1, 1, c⟩)

/-!
## Forcing-path parameters

Embedding of `PathParametersUnit` from
`src/seapodym_lmtl_python/config/parameters.py`. The filesystem visible at
configuration time is modelled as a mapping from path to the variable names
of the dataset stored there; a path absent from the mapping does not exist.
-/

/-- The datasets `xarray.open_dataset` can reach, as path → variable names. -/
structure ForcingFileSystem where
  datasets : List (String × List String)

/-- Look up the dataset at a path; `Option.none` models a missing path. -/
def ForcingFileSystem.openDataset (fs : ForcingFileSystem) (p : String) :
    Option (List String) :=
  (fs.datasets.find? (fun entry => entry.1 == p)).map (fun entry => entry.2)

/-- The validated forcing-path parameter object. -/
structure PathParametersUnit where
  forcing_path : String
  name : String

/-- Embedding of the `PathParametersUnit` attrs constructor: the
`_path_exists` validator raises when the forcing path does not exist, then
the `name_isin_forcing` validator raises when the declared variable name is
not among the variables of the dataset at that path. Both run at
construction time, before any pipeline phase. -/
def mkPathParametersUnit (fs : ForcingFileSystem) (forcing_path nm : String) :
    Except String PathParametersUnit :=
  match fs.openDataset forcing_path with
  | Option.none => Except.error "does not exist."
  | some varNames =>
      if nm ∈ varNames then Except.ok ⟨forcing_path, nm⟩
      else Except.error "is not in the forcing file."

/-!
## NoTransportModel constructor

Embedding of `NoTransportModel.__init__` and `generate_configuration` from
`src/seapopym/model/no_transport_model.py`. The classes
`NoTransportParameters` and `NoTransportConfiguration` are not under `src/`;
they are modelled abstractly (the constructor only wraps or stores them).
-/

/-- Modelled from the spec: the validated parameter object
(`seapopym.configuration.no_transport.parameter`, not under `src/`), kept
abstract — only its identity matters to the constructor. -/
structure NoTransportParameters where
  parameter_data : ℕ

/-- Modelled from the spec: `NoTransportConfiguration`
(`seapopym.configuration.no_transport.configuration`, not under `src/`),
whose constructor stores the parameters it is given. -/
structure NoTransportConfiguration where
  parameters : NoTransportParameters

/-- Modelled from the spec: `configuration.model_parameters`, the state
dataset the configuration serializes to (kept abstract). -/
def NoTransportConfiguration.modelParameters (c : NoTransportConfiguration) : ℕ :=
  c.parameters.parameter_data

/-- The possible Python arguments of `NoTransportModel(configuration=...)`:
a `NoTransportConfiguration` instance, a `NoTransportParameters` instance,
the default `None`, or a value of any other type. -/
inductive ConfigurationArgument where
  | configurationInstance : NoTransportConfiguration → ConfigurationArgument
  | parametersInstance : NoTransportParameters → ConfigurationArgument
  | pyNone : ConfigurationArgument
  | otherObject : String → ConfigurationArgument

/-- A constructed `NoTransportModel`: its `_configuration` and its `state`
(`Option.none` models the Python `None` set by `__init__`). -/
structure NoTransportModel where
  configuration : NoTransportConfiguration
  state : Option ℕ

/-- The `TypeError` message of `NoTransportModel.__init__`. -/
def initErrorMessage : String :=
  "The configuration must be an instance of NoTransportConfiguration or NoTransportParameters."

/-- Embedding of the body of `NoTransportModel.__init__`: a
`NoTransportParameters` argument is wrapped in a `NoTransportConfiguration`;
a `NoTransportConfiguration` argument is stored as is; anything else
(including the default `None`) raises `TypeError` and no model is
constructed. `self.state` is set to `None`. This body only runs if
instantiation gets past the abstract-class check of `ABCMeta` (see
`instantiateNoTransportModel`). -/
def NoTransportModel.init : ConfigurationArgument → Except String NoTransportModel
  | .parametersInstance p => Except.ok ⟨⟨p⟩, Option.none⟩
  | .configurationInstance c => Except.ok ⟨c, Option.none⟩
  | .pyNone => Except.error initErrorMessage
  | .otherObject _ => Except.error initErrorMessage

/-- Embedding of `NoTransportModel.generate_configuration`: set `self.state`
to the configuration's model parameters dataset. -/
def NoTransportModel.generateConfiguration (m : NoTransportModel) : NoTransportModel :=
  ⟨m.configuration, some m.configuration.modelParameters⟩

/-- The methods `src/seapopym/model/base_model.py` declares abstract on
`BaseModel` (`@abc.abstractmethod`, plus the abstract property
`configuration` and the abstract classmethod `parse`). -/
def baseModelAbstractMethods : List String :=
  ["configuration", "parse", "initialize_client", "generate_configuration",
   "save_state", "pre_production", "production", "post_production",
   "save_output", "close"]

/-- The methods and properties `NoTransportModel` defines in
`src/seapopym/model/no_transport_model.py`. It defines `initialize` and
`save_configuration`, not the abstract `initialize_client` and `save_state`
(the source carries a TODO to rename `save_configuration`). -/
def noTransportModelDefinedMethods : List String :=
  ["__init__", "configuration", "client", "parse", "initialize",
   "generate_configuration", "save_configuration", "pre_production",
   "production", "post_production", "save_output", "close"]

/-- The `__abstractmethods__` left on `NoTransportModel`: the abstract
methods of `BaseModel` it does not override. -/
def noTransportModelAbstractMethods : List String :=
  baseModelAbstractMethods.filter
    (fun m => !(noTransportModelDefinedMethods.contains m))

/-- The `TypeError` message Python's `ABCMeta` raises when a class with
remaining abstract methods is instantiated. -/
def abstractErrorMessage : String :=
  "Cannot instantiate abstract class NoTransportModel with abstract methods initialize_client, save_state"

/-- Instantiation of `NoTransportModel` as Python executes it:
`ABCMeta.__call__` first rejects the call with `TypeError` when
`__abstractmethods__` is non-empty, and only otherwise runs the `__init__`
body on the given argument. -/
def instantiateNoTransportModel (arg : ConfigurationArgument) :
    Except String NoTransportModel :=
  if noTransportModelAbstractMethods.isEmpty then NoTransportModel.init arg
  else Except.error abstractErrorMessage

/-!
## Pre-production kernel ordering

Embedding of the kernel schedule of `NoTransportModel.pre_production`
(`src/seapopym/model/no_transport_model.py`): an insertion-ordered dict from
output field name to kernel function, executed by a sequential for-loop that
writes `state[name] = func(state)` after each call.
-/

/-- The field names of the state container used by the pre-production phase:
the configuration fields present before the loop starts, and the output of
each pre-production kernel. -/
inductive FieldLabel where
  | temperature
  | primary_production
  | day_layer
  | night_layer
  | energy_coefficient
  | cohort_timesteps
  | resolution
  | global_mask
  | mask_by_fgroup
  | day_length
  | avg_temperature_by_fgroup
  | primary_production_by_fgroup
  | min_temperature
  | mask_temperature
  | cell_area
  | mortality_field
  deriving DecidableEq

/-- The fields already in the state container when the pre-production loop
starts: the configuration dataset written by `generate_configuration`
(forcings and per-functional-group parameters). -/
def initialFields : List FieldLabel :=
  [.temperature, .primary_production, .day_layer, .night_layer,
   .energy_coefficient, .cohort_timesteps, .resolution]

/-- The declared read-set of each pre-production kernel. `global_mask` and
`avg_temperature_by_fgroup` are read off their source files under `src/`.
Modelled from the spec for the generator modules not under `src/`:
`mask_by_fgroup` projects `global_mask` through each group's day/night layer
selection (spec 4.6), `day_length` is astronomical per latitude/day (it reads
only coordinates), `primary_production_by_fgroup` applies the groups' energy
coefficients to primary production. The spec declares no inputs for
`min_temperature`, `mask_temperature`, `cell_area` and `mortality_field`, so
no reads are modelled for them. -/
def kernelReads : FieldLabel → List FieldLabel
  | .global_mask => [.temperature]
  | .mask_by_fgroup => [.global_mask, .day_layer, .night_layer]
  | .day_length => []
  | .avg_temperature_by_fgroup =>
      [.temperature, .day_length, .mask_by_fgroup, .day_layer, .night_layer]
  | .primary_production_by_fgroup => [.primary_production, .energy_coefficient]
  | _ => []

/-- The insertion order of the `kernel` dict in
`NoTransportModel.pre_production`, which is also the execution order of the
sequential loop. -/
def preProductionOrder : List FieldLabel :=
  [.global_mask, .mask_by_fgroup, .day_length, .avg_temperature_by_fgroup,
   .primary_production_by_fgroup, .min_temperature, .mask_temperature,
   .cell_area, .mortality_field]

/-- The fields available in the state container when the i-th kernel of the
sequential loop starts: the initial configuration fields plus the outputs
already written by the kernels before it. -/
def availableBefore (i : ℕ) : List FieldLabel :=
  initialFields ++ preProductionOrder.take i

/-!
## Production timestamp-selection helper

Embedding of `_preproduction_converter` from `NoTransportModel.production`
(`src/seapopym/model/no_transport_model.py`). The time axis is a list of
integer-coded timestamps (strictly increasing in deployment, since
`new_time` rejects non-monotonic sequences, so the list has no duplicates);
date strings are likewise modelled as integer-coded requested dates.
-/

/-- The value of `environment_parameters.output.pre_production.timestamps`:
Python `None`, the string "all", a list of integers, a list of date strings,
or a value of any other type (which raises `TypeError`). -/
inductive TimestampSelection where
  | pyNone : TimestampSelection
  | allTimestamps : TimestampSelection
  | intList : List ℕ → TimestampSelection
  | strList : List ℤ → TimestampSelection
  | otherType : TimestampSelection
  deriving DecidableEq

/-- `DataArray.sel(time=t, method="nearest")` for one date: the time-axis
value closest to the requested date (ties resolved to the earlier
timestamp). -/
def nearestTimestamp (data : List ℤ) (t : ℤ) : ℤ :=
  match data with
  | [] => t
  | d :: ds => ds.foldl (fun best v => if |v - t| < |best - t| then v else best) d

/-- `np.arange(data.size)[data.isin(selected_dates)]`: the indices of the
time axis whose value appears among the selected values, ascending. -/
def isinIndices (data selected : List ℤ) : List ℕ :=
  (List.range data.length).filter (fun i => decide (data.getD i 0 ∈ selected))

/-- Embedding of `_preproduction_converter`: `None` gives `None`; the string
"all" gives `np.arange(data.size)`; a list of integers selects the
timestamps at those positions (`isel`) and returns the indices whose value
is among them (`isin`); a list of date strings selects the nearest
timestamps (`sel(method="nearest")`) and filters the same way; any other
value raises `TypeError` (`Except.error`). -/
def preproductionConverter (data : List ℤ) :
    TimestampSelection → Except String (Option (List ℕ))
  | .pyNone => Except.ok Option.none
  | .allTimestamps => Except.ok (some (List.range data.length))
  | .intList idxs =>
      let selected_dates := idxs.filterMap (fun j => data[j]?)
      Except.ok (some (isinIndices data selected_dates))
  | .strList dates =>
      let selected_dates := dates.map (nearestTimestamp data)
      Except.ok (some (isinIndices data selected_dates))
  | .otherType =>
      Except.error "The timestamps must be either all, a list of integers or a list of strings."

theorem cumsum_length (l : List ℤ) : (cumsum l).length = l.length := by
  induction l with
  | nil => rfl
  | cons x xs ih => simp [cumsum, ih]

theorem getD_map {α β : Type} (f : α → β) (d : β) (da : α) (l : List α) (i : ℕ)
    (h : i < l.length) : (l.map f).getD i d = f (l.getD i da) := by
  induction l generalizing i with
  | nil => simp at h
  | cons a l ih =>
    cases i with
    | zero => simp
    | succ n => simpa using ih n (by simpa using h)

theorem getD_zipWith {α β γ : Type} (f : α → β → γ) (d : γ) (da : α) (db : β)
    (as : List α) (bs : List β) (i : ℕ) (ha : i < as.length) (hb : i < bs.length) :
    (List.zipWith f as bs).getD i d = f (as.getD i da) (bs.getD i db) := by
  induction as generalizing bs i with
  | nil => simp at ha
  | cons a as ih =>
    cases bs with
    | nil => simp at hb
    | cons b bs =>
      cases i with
      | zero => simp
      | succ n => simpa using ih bs n (by simpa using ha) (by simpa using hb)

theorem cumsum_getD (ts : List ℤ) (i : ℕ) (h : i < ts.length) :
    (cumsum ts).getD i 0 = (ts.take (i + 1)).sum := by
  induction ts generalizing i with
  | nil => simp at h
  | cons x xs ih =>
    cases i with
    | zero => simp [cumsum]
    | succ n =>
      have hn : n < xs.length := by simpa using h
      have hlen : n < (cumsum xs).length := by simpa [cumsum_length] using hn
      simp only [cumsum, List.getD_cons_succ, List.take_succ_cons, List.sum_cons]
      rw [getD_map (x + ·) 0 0 _ n hlen, ih n hn]

theorem cohort_max_length (ts : List ℤ) :
    (cohortByFgroup ts).max_timestep.length = ts.length := by
  simp [cohortByFgroup, cumsum_length]

theorem cohort_min_length (ts : List ℤ) :
    (cohortByFgroup ts).min_timestep.length = ts.length := by
  simp [cohortByFgroup, List.length_zipWith, cumsum_length]

theorem cohort_mean_length (ts : List ℤ) :
    (cohortByFgroup ts).mean_timestep.length = ts.length := by
  simp [cohortByFgroup, List.length_zipWith, cumsum_length]

theorem cohort_max_getD (ts : List ℤ) (i : ℕ) (h : i < ts.length) :
    (cohortByFgroup ts).max_timestep.getD i 0 = (ts.take (i + 1)).sum := by
  simpa [cohortByFgroup] using cumsum_getD ts i h

theorem cohort_min_getD (ts : List ℤ) (i : ℕ) (h : i < ts.length) :
    (cohortByFgroup ts).min_timestep.getD i 0
      = (cohortByFgroup ts).max_timestep.getD i 0 - ts.getD i 0 + 1 := by
  have hc : i < (cumsum ts).length := by simpa [cumsum_length] using h
  simp only [cohortByFgroup]
  rw [getD_zipWith (fun m t => m - (t - 1)) 0 0 0 (cumsum ts) ts i hc h]
  omega

theorem cohort_mean_getD (ts : List ℤ) (i : ℕ) (h : i < ts.length) :
    (cohortByFgroup ts).mean_timestep.getD i 0
      = (((cohortByFgroup ts).max_timestep.getD i 0
          + (cohortByFgroup ts).min_timestep.getD i 0 : ℤ) : ℚ) / 2 := by
  have hc : i < (cumsum ts).length := by simpa [cumsum_length] using h
  have hm : i < (List.zipWith (fun m t => m - (t - 1)) (cumsum ts) ts).length := by
    simpa [List.length_zipWith, cumsum_length] using h
  simp only [cohortByFgroup]
  rw [getD_zipWith (fun m n => (((m + n : ℤ) : ℚ)) / 2) 0 0 0 _ _ i hc hm]

theorem getD_head_sum (ts : List ℤ) (h : 0 < ts.length) :
    (ts.take 1).sum = ts.getD 0 0 := by
  cases ts with
  | nil => simp at h
  | cons x xs => simp

/-- C3: for every per-group list `timesteps_number`, the cohort derivation
returns `max_timestep[i] = cumsum(timesteps_number)[i]`,
`min_timestep[i] = max_timestep[i] - timesteps_number[i] + 1` and
`mean_timestep[i] = (min_timestep[i] + max_timestep[i]) / 2`; in particular
for `[3, 2, 5]` it returns `max = [3, 5, 10]`, `min = [1, 4, 6]` and
`mean = [2, 4.5, 8]`. -/
theorem C3_cohort_coordinate_derivation (ts : List ℤ) (i : ℕ) (h : i < ts.length) :
    ((cohortByFgroup ts).max_timestep.getD i 0 = (ts.take (i + 1)).sum
      ∧ (cohortByFgroup ts).min_timestep.getD i 0
          = (cohortByFgroup ts).max_timestep.getD i 0 - ts.getD i 0 + 1
      ∧ (cohortByFgroup ts).mean_timestep.getD i 0
          = (((cohortByFgroup ts).min_timestep.getD i 0
              + (cohortByFgroup ts).max_timestep.getD i 0 : ℤ) : ℚ) / 2)
    ∧ cohortByFgroup [3, 2, 5] = ⟨[3, 2, 5], [1, 4, 6], [3, 5, 10], [2, 9 / 2, 8]⟩ := by
  refine ⟨⟨cohort_max_getD ts i h, cohort_min_getD ts i h, ?_⟩, ?_⟩
  · rw [cohort_mean_getD ts i h, Int.add_comm]
  · norm_num [cohortByFgroup, cumsum]

/-- Witness for C3 at the concrete input `[3, 2, 5]`. -/
theorem C3_cohort_coordinate_derivation_witness :
    cohortByFgroup [3, 2, 5] = ⟨[3, 2, 5], [1, 4, 6], [3, 5, 10], [2, 9 / 2, 8]⟩ :=
  (C3_cohort_coordinate_derivation [3, 2, 5] 0 (by decide)).2

/-- C10: for positive `timesteps_number`, the derived cohort intervals tile the
timestep line contiguously: `min_timestep[0] = 1`,
`min_timestep[i] = max_timestep[i-1] + 1` for `i ≥ 1`, and
`min_timestep[i] ≤ mean_timestep[i] ≤ max_timestep[i]` for every cohort. -/
theorem C10_cohort_intervals_partition (ts : List ℤ) (hpos : ∀ t ∈ ts, 0 < t) :
    (0 < ts.length → (cohortByFgroup ts).min_timestep.getD 0 0 = 1)
    ∧ (∀ i, i + 1 < ts.length →
        (cohortByFgroup ts).min_timestep.getD (i + 1) 0
          = (cohortByFgroup ts).max_timestep.getD i 0 + 1)
    ∧ (∀ i, i < ts.length →
        ((cohortByFgroup ts).min_timestep.getD i 0 : ℚ)
            ≤ (cohortByFgroup ts).mean_timestep.getD i 0
          ∧ (cohortByFgroup ts).mean_timestep.getD i 0
            ≤ ((cohortByFgroup ts).max_timestep.getD i 0 : ℚ)) := by
  refine ⟨fun h0 => ?_, fun i hi => ?_, fun i hi => ?_⟩
  · rw [cohort_min_getD ts 0 h0, cohort_max_getD ts 0 h0, getD_head_sum ts h0]
    omega
  · have hi' : i < ts.length := Nat.lt_of_succ_lt hi
    rw [cohort_min_getD ts (i + 1) hi, cohort_max_getD ts (i + 1) hi,
      cohort_max_getD ts i hi']
    have hsum := List.sum_take_succ ts (i + 1) hi
    have hgetD : ts.getD (i + 1) 0 = ts[i + 1] := List.getD_eq_getElem ts 0 hi
    omega
  · have hmin := cohort_min_getD ts i hi
    have hmean := cohort_mean_getD ts i hi
    have hgetD : ts.getD i 0 = ts[i] := List.getD_eq_getElem ts 0 hi
    have hposi : 0 < ts.getD i 0 := by rw [hgetD]; exact hpos _ (List.getElem_mem _)
    have hle : (cohortByFgroup ts).min_timestep.getD i 0
        ≤ (cohortByFgroup ts).max_timestep.getD i 0 := by omega
    have hleQ : (((cohortByFgroup ts).min_timestep.getD i 0 : ℤ) : ℚ)
        ≤ (((cohortByFgroup ts).max_timestep.getD i 0 : ℤ) : ℚ) := by
      exact_mod_cast hle
    rw [hmean]
    constructor <;> push_cast <;> linarith

/-- Witness for C10 at the concrete input `[3, 2, 5]`. -/
theorem C10_cohort_intervals_partition_witness :
    (cohortByFgroup [3, 2, 5]).min_timestep.getD 1 0
      = (cohortByFgroup [3, 2, 5]).max_timestep.getD 0 0 + 1 :=
  (C10_cohort_intervals_partition [3, 2, 5] (by decide)).2.1 0 (by decide)

/-- C1: at every (functional_group, time, Y, X) point, the average-temperature
kernel returns exactly `day_length * temperature(day_layer[g]) +
(1 - day_length) * temperature(night_layer[g])` wherever `mask_by_fgroup[g]`
is true, and excludes the point (missing value) wherever the mask is false;
the weighted sum is always taken over the unmasked temperatures, so the mask
is applied only after the sum. The output is indexed by
(functional_group, time, Y, X). -/
theorem C1_average_temperature_formula (s : AvgTemperatureState) (g t y x : ℕ) :
    averageTemperatureHelper s g t y x
      = if s.mask_by_fgroup g y x = true
        then some (specWeightedTemperature s g t y x)
        else none := by
  cases h : s.mask_by_fgroup g y x <;>
    simp [averageTemperatureHelper, whereMask, specWeightedTemperature, h]

/-- C6: on the reference input (4 functional groups with day/night layer pairs
(1,1), (1,2), (2,2), (2,1), temperature increasing linearly with the layer
index and constant day_length 0.5, all-true mask), the kernel returns the
per-group mean temperatures 0, 0.5, 1.0, 0.5 at every grid point. -/
theorem C6_reference_average_temperature (t y x : ℕ) :
    (List.range 4).map (fun g => averageTemperatureHelper referenceState g t y x)
      = [some 0, some (1 / 2), some 1, some (1 / 2)] := by
  norm_num [averageTemperatureHelper, referenceState, whereMask, List.range_succ]

/-- C2: for every kernel function, state container and template metadata,
materializing the lazy result equals running the kernel eagerly — the data
and the dims/attribute metadata are identical; in particular this holds for
the `average_temperature` and `global_mask` wrappers of the source, whatever
chunking and model name are chosen. -/
theorem C2_eager_lazy_equivalence :
    (∀ (σ α : Type) (f : σ → α) (state : σ) (meta : TemplateMeta)
        (modelName : String),
      materializeResult (applyMapBlock f state (KernelTemplate.templateLazy meta modelName))
        = materializeResult (applyMapBlock f state (KernelTemplate.template meta)))
    ∧ (∀ (s : AvgTemperatureState) (chunk : Option (List (String × ℕ)))
          (modelName : String),
        materializeResult (averageTemperatureKernel s chunk (some modelName))
          = materializeResult (averageTemperatureKernel s chunk Option.none))
    ∧ (∀ (s : GlobalMaskState) (chunk : Option (List (String × ℕ)))
          (modelName : String),
        materializeResult (globalMaskKernel s chunk (some modelName))
          = materializeResult (globalMaskKernel s chunk Option.none)) :=
  ⟨fun _ _ _ _ _ _ => rfl, fun _ _ _ => rfl, fun _ _ _ => rfl⟩

/-- C4: constructing the functional-groups parameter object fails exactly when
the sum of the per-group energy coefficients exceeds 1; coefficients
0.5, 0.3, 0.3 (sum 1.1) are rejected and 0.5, 0.3, 0.2 (sum 1.0, the
boundary) are accepted. -/
theorem C4_energy_coefficient_sum_validation :
    (∀ groups : List FunctionalGroupUnit,
      (∃ e, mkFunctionalGroups groups = Except.error e)
        ↔ 1 < (groups.map (fun fg => fg.energy_coefficient)).sum)
    ∧ (∃ e, mkFunctionalGroups (groupsWithCoefficients [1/2, 3/10, 3/10])
        = Except.error e)
    ∧ mkFunctionalGroups (groupsWithCoefficients [1/2, 3/10, 1/5])
        = Except.ok (groupsWithCoefficients [1/2, 3/10, 1/5]) := by
  refine ⟨fun groups => ?_, ?_, ?_⟩
  · by_cases h : 1 < (groups.map (fun fg => fg.energy_coefficient)).sum <;>
      simp [mkFunctionalGroups, h]
  · refine ⟨"Sum of energy coefficient must be less or equal than 1.", ?_⟩
    norm_num [mkFunctionalGroups, groupsWithCoefficients]
  · norm_num [mkFunctionalGroups, groupsWithCoefficients]

/-- C7: constructing a forcing-path parameter succeeds exactly when the
forcing path exists and the declared variable name is in the dataset at that
path, and fails (raises at configuration time) exactly when the path is
missing or the variable name is absent. -/
theorem C7_forcing_path_validation (fs : ForcingFileSystem) (p nm : String) :
    (mkPathParametersUnit fs p nm = Except.ok ⟨p, nm⟩
      ↔ ∃ varNames, fs.openDataset p = some varNames ∧ nm ∈ varNames)
    ∧ ((∃ e, mkPathParametersUnit fs p nm = Except.error e)
      ↔ ∀ varNames, fs.openDataset p = some varNames → nm ∉ varNames) := by
  cases h : fs.openDataset p with
  | none => simp [mkPathParametersUnit, h]
  | some varNames =>
      by_cases hmem : nm ∈ varNames <;> simp [mkPathParametersUnit, h, hmem]

/-- C9 (code bug): `NoTransportModel` leaves the abstract methods
`initialize_client` and `save_state` of `BaseModel` unimplemented (it
defines `initialize` and `save_configuration` instead), so `ABCMeta` raises
`TypeError` on every instantiation, before `__init__` runs — in particular
the claimed success case for a `NoTransportParameters` argument never
occurs. The `__init__` body itself, were it reachable, behaves exactly as
the claim states (wrap the parameters, reject `None`), which shows the claim
is the intent and the missing renames the slip. -/
theorem C9_abstract_class_instantiation_fails :
    noTransportModelAbstractMethods = ["initialize_client", "save_state"]
    ∧ (∀ arg, instantiateNoTransportModel arg = Except.error abstractErrorMessage)
    ∧ (∀ p, instantiateNoTransportModel (ConfigurationArgument.parametersInstance p)
        ≠ Except.ok ⟨⟨p⟩, Option.none⟩)
    ∧ (∀ p, NoTransportModel.init (ConfigurationArgument.parametersInstance p)
        = Except.ok ⟨⟨p⟩, Option.none⟩)
    ∧ NoTransportModel.init ConfigurationArgument.pyNone
        = Except.error initErrorMessage := by
  have habs : noTransportModelAbstractMethods = ["initialize_client", "save_state"] := by
    rfl
  have hinst : ∀ arg,
      instantiateNoTransportModel arg = Except.error abstractErrorMessage := by
    intro arg
    simp [instantiateNoTransportModel, habs]
  refine ⟨habs, hinst, fun p h => ?_, fun p => rfl, rfl⟩
  rw [hinst (ConfigurationArgument.parametersInstance p)] at h
  exact Except.noConfusion h

/-- C5: in the pre-production schedule of the source, every kernel's modelled
read-set is already in the state container when that kernel starts (initial
configuration fields plus outputs of earlier kernels); in particular every
kernel that reads `global_mask` runs strictly after the `global_mask` kernel
has written its output. -/
theorem C5_pre_production_read_after_write :
    (∀ i ∈ List.range preProductionOrder.length,
      ∀ r ∈ kernelReads (preProductionOrder.getD i FieldLabel.temperature),
        r ∈ availableBefore i)
    ∧ (∀ i ∈ List.range preProductionOrder.length,
        FieldLabel.global_mask
            ∈ kernelReads (preProductionOrder.getD i FieldLabel.temperature) →
          FieldLabel.global_mask ∈ preProductionOrder.take i) := by
  constructor <;> decide

/-- Witness for C5: when the `avg_temperature_by_fgroup` kernel (position 3 of
the loop) starts, the `mask_by_fgroup` field it reads is already available. -/
theorem C5_pre_production_read_after_write_witness :
    FieldLabel.mask_by_fgroup ∈ availableBefore 3 :=
  C5_pre_production_read_after_write.1 3 (by decide) FieldLabel.mask_by_fgroup
    (by decide)

/-- C8 counterexample: the full index range is not returned only for the
selection "all" — on the two-timestamp axis [5, 7], the integer selection
[0, 1] (which is not "all") also returns the full index range 0..1. -/
theorem C8_full_range_counterexample :
    preproductionConverter [5, 7] (TimestampSelection.intList [0, 1])
        = Except.ok (some (List.range 2))
      ∧ TimestampSelection.intList [0, 1] ≠ TimestampSelection.allTimestamps := by
  exact ⟨by rfl, by decide⟩

/-- C8 (amended): the helper returns the indices of exactly the selected
timestamps: `None` gives no selection, "all" gives the full index range
0..size-1 (an integer or date selection that happens to cover every
timestamp returns the full range as well), an in-range integer list selects
exactly those time indices (in ascending order, duplicates merged), a date
list selects exactly the indices of the nearest matching timestamps, and any
other value raises `TypeError`. The time axis has no duplicates, as
`new_time` accepts only strictly increasing sequences. -/
theorem C8_timestamp_selection_amended (data : List ℤ) (hnd : data.Nodup) :
    (preproductionConverter data TimestampSelection.pyNone
        = Except.ok Option.none)
    ∧ (preproductionConverter data TimestampSelection.allTimestamps
        = Except.ok (some (List.range data.length)))
    ∧ (∀ idxs : List ℕ, (∀ j ∈ idxs, j < data.length) →
        preproductionConverter data (TimestampSelection.intList idxs)
          = Except.ok (some
              ((List.range data.length).filter (fun i => decide (i ∈ idxs)))))
    ∧ (∀ dates : List ℤ,
        preproductionConverter data (TimestampSelection.strList dates)
          = Except.ok (some (isinIndices data (dates.map (nearestTimestamp data)))))
    ∧ preproductionConverter data TimestampSelection.otherType
        = Except.error
            "The timestamps must be either all, a list of integers or a list of strings." := by
  refine ⟨rfl, rfl, fun idxs hrange => ?_, fun dates => rfl, rfl⟩
  simp only [preproductionConverter, isinIndices]
  have hpt : ∀ i ∈ List.range data.length,
      decide (data.getD i 0 ∈ idxs.filterMap (fun j => data[j]?))
        = decide (i ∈ idxs) := by
    intro i hi
    have hi' : i < data.length := List.mem_range.mp hi
    rw [List.getD_eq_getElem data 0 hi', decide_eq_decide]
    constructor
    · intro hmem
      rcases List.mem_filterMap.mp hmem with ⟨j, hj, hjeq⟩
      rcases List.getElem?_eq_some_iff.mp hjeq with ⟨hjlt, hjv⟩
      exact (hnd.getElem_inj_iff.mp hjv) ▸ hj
    · intro hmem
      exact List.mem_filterMap.mpr ⟨i, hmem, List.getElem?_eq_getElem hi'⟩
  rw [List.filter_congr hpt]

/-- Witness for C8 (amended) on the axis [5, 7]: the integer selection [1]
returns exactly index 1. -/
theorem C8_timestamp_selection_amended_witness :
    preproductionConverter [5, 7] (TimestampSelection.intList [1])
      = Except.ok (some
          ((List.range ([5, 7] : List ℤ).length).filter (fun i => decide (i ∈ [1])))) :=
  (C8_timestamp_selection_amended [5, 7] (by decide)).2.2.1 [1] (by decide)

end Seapopym
